import Mathlib

/-
Verification of the Appointment & Availability Scheduling core of the
Hospital_Management_System repository (src/app.py, src/database.py).

The persistent store (SQLAlchemy models in src/database.py) is embedded as
lists of records; each Flask view function's mutation logic (src/app.py) is
embedded as a pure function `Store → args → Store × Except Err Unit`, where
the returned store is the state after the request and the `Except` component
is the outcome the dispatcher presents (flash category / HTTP abort):
`abort(403) ↦ forbiddenError`, `get_or_404 miss ↦ notFoundError`,
the "Slot already booked" danger flash ↦ `conflictError`, and the
"Select a date within the next 7 days" warning ↦ `outOfWindowError`.

Dates are embedded as day numbers (`Nat`, days since an arbitrary epoch), so
`today + timedelta(days=7)` becomes `today + 7`; times of day as minute
numbers (`Nat`). Surrogate primary keys that the code never queries
(DoctorAvailability.id, TreatmentNote.id) are omitted; rows of those tables
are identified by their unique keys (doctor_id, available_date) and
appointment_id, exactly as the code queries them. Fields the modelled
operations never read or write (timestamps, emails, demographic text
columns) are omitted.
-/

namespace HMS

/-- The `AppointmentStatus` enum of src/database.py (values "Booked",
"Completed", "Cancelled"). -/
inductive AppointmentStatus where
  | booked
  | completed
  | cancelled
deriving DecidableEq, Repr

/-- The error kinds of spec §7, as outcomes of an operation. -/
inductive Err where
  | validationError
  | conflictError
  | forbiddenError
  | notFoundError
  | outOfWindowError
deriving DecidableEq, Repr

/-- The `users` table (src/database.py): only the fields the modelled
operations touch. -/
structure User where
  id : Nat
  is_active : Bool
deriving DecidableEq, Repr

/-- The `doctors` table (src/database.py): only the fields the modelled
operations touch. `user_id` is the unique link to the `users` row. -/
structure Doctor where
  id : Nat
  user_id : Nat
  is_active : Bool
deriving DecidableEq, Repr

/-- The `appointments` table (src/database.py). -/
structure Appointment where
  id : Nat
  patient_id : Nat
  doctor_id : Nat
  department_id : Nat
  appointment_date : Nat
  appointment_time : Nat
  status : AppointmentStatus
  reason : String
deriving DecidableEq, Repr

/-- The `doctor_availability` table (src/database.py), unique on
(doctor_id, available_date). -/
structure DoctorAvailability where
  doctor_id : Nat
  available_date : Nat
  start_time : Nat
  end_time : Nat
deriving DecidableEq, Repr

/-- The `treatment_notes` table (src/database.py), unique on appointment_id. -/
structure TreatmentNote where
  appointment_id : Nat
  diagnosis : String
  prescription : String
  notes : String
deriving DecidableEq, Repr

/-- The whole persistent store (departments carry no behaviour the claims
need, so only their ids appear, inside appointments). -/
structure Store where
  users : List User
  doctors : List Doctor
  appointments : List Appointment
  availabilities : List DoctorAvailability
  treatment_notes : List TreatmentNote
deriving DecidableEq, Repr

/-- SQLAlchemy mutates the single row returned by a query; on a list this is
replacing the first element satisfying `p` by its image under `f`. -/
def updateFirst (p : α → Bool) (f : α → α) : List α → List α
  | [] => []
  | x :: xs => if p x then f x :: xs else x :: updateFirst p f xs

/-- The `filter_by(doctor_id=…, appointment_date=…, appointment_time=…)`
predicate used by the booking and rescheduling conflict checks. -/
def slotMatches (doctor_id d t : Nat) (a : Appointment) : Bool :=
  a.doctor_id == doctor_id && a.appointment_date == d && a.appointment_time == t

/-- Embedding of `book_appointment` (src/app.py lines 494-536), POST branch. `newId` is
the primary key the database assigns to the inserted row; the status column
defaults to Booked (src/database.py line 134). -/
def book_appointment (s : Store) (patient_id doctor_id department_id : Nat)
    (d t : Nat) (reason : String) (newId : Nat) : Store × Except Err Unit :=
  match s.appointments.find? (slotMatches doctor_id d t) with
  | some _ => (s, .error .conflictError)
  | none =>
      ({ s with appointments := s.appointments ++
          [{ id := newId, patient_id := patient_id, doctor_id := doctor_id,
             department_id := department_id, appointment_date := d,
             appointment_time := t, status := .booked, reason := reason }] },
       .ok ())

/-- Embedding of `cancel_appointment` (src/app.py lines 539-549): 404 if the id is
unknown, 403 unless the requester owns the appointment, else
`status = Cancelled` unconditionally. -/
def cancel_appointment (s : Store) (requester_patient_id appointment_id : Nat) :
    Store × Except Err Unit :=
  match s.appointments.find? (fun a => a.id == appointment_id) with
  | none => (s, .error .notFoundError)
  | some appt =>
      if appt.patient_id ≠ requester_patient_id then (s, .error .forbiddenError)
      else
        let appointments := updateFirst (fun a => a.id == appointment_id)
          (fun a => { a with status := .cancelled }) s.appointments
        ({ s with appointments := appointments }, .ok ())

/-- Embedding of `reschedule_appointment` (src/app.py lines 552-576): ownership check,
then a conflict check on (doctor_id, new_date, new_time) that excludes the
appointment itself; on success date and time are updated and status is set
back to Booked. -/
def reschedule_appointment (s : Store) (requester_patient_id appointment_id : Nat)
    (new_date new_time : Nat) : Store × Except Err Unit :=
  match s.appointments.find? (fun a => a.id == appointment_id) with
  | none => (s, .error .notFoundError)
  | some appt =>
      if appt.patient_id ≠ requester_patient_id then (s, .error .forbiddenError)
      else
        let moved : Appointment → Appointment := fun a =>
          { a with appointment_date := new_date, appointment_time := new_time,
                   status := .booked }
        let appointments :=
          updateFirst (fun a => a.id == appointment_id) moved s.appointments
        match s.appointments.find? (slotMatches appt.doctor_id new_date new_time) with
        | some conflict =>
            if conflict.id ≠ appt.id then (s, .error .conflictError)
            else ({ s with appointments := appointments }, .ok ())
        | none => ({ s with appointments := appointments }, .ok ())

/-- Embedding of `update_availability` (src/app.py lines 374-405): reject dates outside
`[today, today+7]`, then upsert on the unique key (doctor_id, date),
overwriting only the time columns of an existing row. -/
def update_availability (s : Store) (doctor_id : Nat) (today available_date : Nat)
    (start_time end_time : Nat) : Store × Except Err Unit :=
  if ¬(today ≤ available_date ∧ available_date ≤ today + 7) then
    (s, .error .outOfWindowError)
  else
    let key : DoctorAvailability → Bool := fun av =>
      av.doctor_id == doctor_id && av.available_date == available_date
    match s.availabilities.find? key with
    | some _ =>
        let availabilities := updateFirst key
          (fun av => { av with start_time := start_time, end_time := end_time })
          s.availabilities
        ({ s with availabilities := availabilities }, .ok ())
    | none =>
        let row : DoctorAvailability :=
          { doctor_id := doctor_id, available_date := available_date,
            start_time := start_time, end_time := end_time }
        ({ s with availabilities := s.availabilities ++ [row] }, .ok ())

/-- The membership test `status in AppointmentStatus.__members__` followed by
`AppointmentStatus[status]` (src/app.py lines 304-305 and 353-354): the
recognized strings are the enum member NAMES, i.e. the uppercase keys. -/
def statusFromName (name : String) : Option AppointmentStatus :=
  if name = "BOOKED" then some .booked
  else if name = "COMPLETED" then some .completed
  else if name = "CANCELLED" then some .cancelled
  else none

/-- Applying an optional raw status string to the appointment list: the
status column changes only when the string is a recognized member name
(`request.form.get("status")` may also be absent, hence `Option String`). -/
def applyStatusForm (appointments : List Appointment) (appointment_id : Nat)
    (status : Option String) : List Appointment :=
  match status with
  | none => appointments
  | some name =>
      match statusFromName name with
      | none => appointments
      | some st =>
          updateFirst (fun a => a.id == appointment_id)
            (fun a => { a with status := st })
            appointments

/-- Embedding of `admin_update_appointment` (src/app.py lines 298-308): no ownership
check; an unrecognized status string is silently ignored and the request
still commits and flashes success. -/
def admin_update_appointment (s : Store) (appointment_id : Nat)
    (status : Option String) : Store × Except Err Unit :=
  match s.appointments.find? (fun a => a.id == appointment_id) with
  | none => (s, .error .notFoundError)
  | some _ =>
      ({ s with appointments := applyStatusForm s.appointments appointment_id status },
       .ok ())

/-- Embedding of `update_appointment_status` (src/app.py lines 341-371), the doctor
clinical update: 403 unless the appointment's doctor is the requester; a
recognized status name is applied, anything else ignored; the treatment note
is created if absent, else all three text fields are overwritten (the form
fields default to the empty string). -/
def update_appointment_status (s : Store) (requester_doctor_id appointment_id : Nat)
    (status : Option String) (diagnosis prescription notes : String) :
    Store × Except Err Unit :=
  match s.appointments.find? (fun a => a.id == appointment_id) with
  | none => (s, .error .notFoundError)
  | some appt =>
      if appt.doctor_id ≠ requester_doctor_id then (s, .error .forbiddenError)
      else
        let appointments := applyStatusForm s.appointments appointment_id status
        let overwrite : TreatmentNote → TreatmentNote := fun n =>
          { n with diagnosis := diagnosis, prescription := prescription,
                   notes := notes }
        let fresh : TreatmentNote :=
          { appointment_id := appointment_id, diagnosis := diagnosis,
            prescription := prescription, notes := notes }
        let treatment_notes :=
          match s.treatment_notes.find? (fun n => n.appointment_id == appointment_id) with
          | some _ =>
              updateFirst (fun n => n.appointment_id == appointment_id) overwrite
                s.treatment_notes
          | none => s.treatment_notes ++ [fresh]
        ({ s with appointments := appointments, treatment_notes := treatment_notes },
         .ok ())

/-- Embedding of `toggle_doctor` (src/app.py lines 241-250): flips the doctor's flag and
copies the NEW doctor flag onto the linked user. -/
def toggle_doctor (s : Store) (doctor_id : Nat) : Store × Except Err Unit :=
  match s.doctors.find? (fun doc => doc.id == doctor_id) with
  | none => (s, .error .notFoundError)
  | some doc =>
      let newActive := !doc.is_active
      let doctors := updateFirst (fun d => d.id == doctor_id)
        (fun d => { d with is_active := newActive }) s.doctors
      let users := updateFirst (fun u => u.id == doc.user_id)
        (fun u => { u with is_active := newActive }) s.users
      ({ s with doctors := doctors, users := users }, .ok ())

/-- The database uniqueness constraint uniq_doctor_slot
(src/database.py lines 143-150): at most one appointment per
(doctor, date, time). -/
def slotUnique (s : Store) : Prop :=
  ∀ did d t, (s.appointments.filter (slotMatches did d t)).length ≤ 1

/-- The database uniqueness constraint uniq_doctor_date_availability
(src/database.py lines 114-118): at most one availability row per
(doctor, date). -/
def availUnique (s : Store) : Prop :=
  ∀ did d,
    (s.availabilities.filter
      (fun av => av.doctor_id == did && av.available_date == d)).length ≤ 1

/-- One `setAvailability` request: the acting doctor, the day the request is
made, the requested date and the time window. -/
structure AvailCall where
  doctor_id : Nat
  today : Nat
  available_date : Nat
  start_time : Nat
  end_time : Nat
deriving DecidableEq, Repr

/-- The store after a whole sequence of `setAvailability` requests. -/
def applyAvailCalls (s : Store) : List AvailCall → Store
  | [] => s
  | c :: cs =>
      applyAvailCalls
        (update_availability s c.doctor_id c.today c.available_date
          c.start_time c.end_time).1 cs

theorem updateFirst_eq_of_find?_eq_none {p : α → Bool} {f : α → α} {l : List α}
    (h : l.find? p = none) : updateFirst p f l = l := by
  induction l with
  | nil => rfl
  | cons x xs ih =>
      cases hx : p x with
      | true => simp [List.find?_cons, hx] at h
      | false =>
          simp only [List.find?_cons, hx] at h
          simp [updateFirst, hx, ih h]

theorem length_updateFirst (p : α → Bool) (f : α → α) (l : List α) :
    (updateFirst p f l).length = l.length := by
  induction l with
  | nil => rfl
  | cons x xs ih => cases hx : p x <;> simp [updateFirst, hx, ih]

theorem countP_updateFirst (q p : α → Bool) (f : α → α) (l : List α)
    (hq : ∀ b, q (f b) = q b) :
    (updateFirst p f l).countP q = l.countP q := by
  induction l with
  | nil => rfl
  | cons x xs ih =>
      cases hx : p x <;> simp [updateFirst, hx, List.countP_cons, hq, ih]

theorem find?_updateFirst_self (p : α → Bool) (f : α → α) {l : List α} {a : α}
    (hp : ∀ b, p (f b) = p b) (h : l.find? p = some a) :
    (updateFirst p f l).find? p = some (f a) := by
  induction l with
  | nil => simp [List.find?] at h
  | cons x xs ih =>
      cases hx : p x with
      | true =>
          simp only [List.find?_cons, hx] at h
          cases h
          simp [updateFirst, hx, List.find?_cons, hp]
      | false =>
          simp only [List.find?_cons, hx] at h
          simp [updateFirst, hx, List.find?_cons, ih h]

theorem updateFirst_idem (p : α → Bool) (f : α → α) (l : List α)
    (hp : ∀ b, p (f b) = p b) (hf : ∀ b, f (f b) = f b) :
    updateFirst p f (updateFirst p f l) = updateFirst p f l := by
  induction l with
  | nil => rfl
  | cons x xs ih =>
      cases hx : p x with
      | true => simp [updateFirst, hx, hp, hf]
      | false => simp [updateFirst, hx, ih]

theorem filter_updateFirst_of_countP_le_one (p : α → Bool) (f : α → α) {l : List α}
    {a : α} (hp : ∀ b, p (f b) = p b) (h1 : l.countP p ≤ 1)
    (h : l.find? p = some a) : (updateFirst p f l).filter p = [f a] := by
  induction l with
  | nil => simp [List.find?] at h
  | cons x xs ih =>
      cases hx : p x with
      | true =>
          simp only [List.find?_cons, hx] at h
          cases h
          rw [List.countP_cons, hx] at h1
          norm_num at h1
          have hnil : xs.filter p = [] :=
            List.filter_eq_nil_iff.mpr (fun b hb => by simp [h1 b hb])
          simp [updateFirst, hx, List.filter_cons, hp, hnil]
      | false =>
          simp only [List.find?_cons, hx] at h
          have h1' : xs.countP p ≤ 1 := by
            rw [List.countP_cons, hx] at h1
            simpa using h1
          simp [updateFirst, hx, List.filter_cons, ih h1' h]

/-- A sample store used to instantiate the theorems: one user, one active
doctor, and one booked appointment for doctor 1 on day 10 at minute 600. -/
def sampleStore : Store :=
  { users := [{ id := 1, is_active := true }],
    doctors := [{ id := 1, user_id := 1, is_active := true }],
    appointments :=
      [{ id := 1, patient_id := 1, doctor_id := 1, department_id := 1,
         appointment_date := 10, appointment_time := 600,
         status := .booked, reason := "checkup" }],
    availabilities := [], treatment_notes := [] }

/-- C1: booking by a patient returns ConflictError and leaves the store
unchanged exactly when some appointment — of any status — already occupies
the requested (doctorId, date, time); otherwise it succeeds and appends one
new appointment with status Booked carrying the requested fields. -/
theorem c1_book_conflict_iff_slot_taken (s : Store)
    (pid did dept d t newId : Nat) (reason : String) :
    if ∃ a ∈ s.appointments, slotMatches did d t a = true then
      book_appointment s pid did dept d t reason newId = (s, .error .conflictError)
    else
      (book_appointment s pid did dept d t reason newId).2 = .ok () ∧
      ∃ a, (book_appointment s pid did dept d t reason newId).1.appointments =
            s.appointments ++ [a] ∧
        a.status = .booked ∧ a.patient_id = pid ∧ a.doctor_id = did ∧
        a.department_id = dept ∧ a.appointment_date = d ∧
        a.appointment_time = t ∧ a.reason = reason := by
  by_cases hc : ∃ a ∈ s.appointments, slotMatches did d t a = true
  · rw [if_pos hc]
    have hsome : (s.appointments.find? (slotMatches did d t)).isSome :=
      List.find?_isSome.mpr hc
    obtain ⟨a, ha⟩ := Option.isSome_iff_exists.mp hsome
    simp [book_appointment, ha]
  · rw [if_neg hc]
    push_neg at hc
    have hnone : s.appointments.find? (slotMatches did d t) = none :=
      List.find?_eq_none.mpr (fun x hx => by simp [hc x hx])
    refine ⟨by simp [book_appointment, hnone], ?_⟩
    refine ⟨{ id := newId, patient_id := pid, doctor_id := did,
              department_id := dept, appointment_date := d,
              appointment_time := t, status := .booked, reason := reason },
            ?_, rfl, rfl, rfl, rfl, rfl, rfl, rfl⟩
    simp [book_appointment, hnone]

/-- C1 witness: in the sample store, booking doctor 1's taken slot
(day 10, minute 600) is rejected with the store unchanged, and booking the
free slot (day 10, minute 601) appends a Booked appointment. -/
theorem c1_book_conflict_iff_slot_taken_witness :
    book_appointment sampleStore 2 1 1 10 600 "flu" 2 =
      (sampleStore, .error .conflictError) ∧
    (book_appointment sampleStore 2 1 1 10 601 "flu" 2).2 = .ok () := by
  constructor
  · have h := c1_book_conflict_iff_slot_taken sampleStore 2 1 1 10 600 2 "flu"
    rw [if_pos (by decide)] at h
    exact h
  · have h := c1_book_conflict_iff_slot_taken sampleStore 2 1 1 10 601 2 "flu"
    rw [if_neg (by decide)] at h
    exact h.1

/-- C2: setAvailability fails with OutOfWindowError, mutating nothing,
exactly when the requested date is outside the inclusive window
[today, today+7]; inside the window it succeeds. -/
theorem c2_availability_window (s : Store) (did today d st en : Nat) :
    if today ≤ d ∧ d ≤ today + 7 then
      (update_availability s did today d st en).2 = .ok ()
    else
      update_availability s did today d st en = (s, .error .outOfWindowError) := by
  by_cases h : today ≤ d ∧ d ≤ today + 7
  · rw [if_pos h]
    simp only [update_availability, if_neg (not_not_intro h)]
    cases hf : s.availabilities.find?
        (fun av => av.doctor_id == did && av.available_date == d) <;> simp [hf]
  · rw [if_neg h]
    simp [update_availability, h]

/-- C2 witness: from the sample store on day 5, date 13 is out of window and
rejected; date 12 is inside and accepted. -/
theorem c2_availability_window_witness :
    update_availability sampleStore 1 5 13 540 720 =
      (sampleStore, .error .outOfWindowError) ∧
    (update_availability sampleStore 1 5 12 540 720).2 = .ok () := by
  constructor
  · have h := c2_availability_window sampleStore 1 5 13 540 720
    rw [if_neg (by decide)] at h
    exact h
  · have h := c2_availability_window sampleStore 1 5 12 540 720
    rw [if_pos (by decide)] at h
    exact h

/-- One setAvailability request preserves the per-(doctor, date)
uniqueness constraint on availability rows. -/
theorem availUnique_update_availability (s : Store) (hs : availUnique s)
    (did today d st en : Nat) :
    availUnique (update_availability s did today d st en).1 := by
  by_cases hw : today ≤ d ∧ d ≤ today + 7
  · simp only [update_availability, if_neg (not_not_intro hw)]
    cases hf : s.availabilities.find?
        (fun av => av.doctor_id == did && av.available_date == d) with
    | some row =>
        intro did' d'
        simp only
        rw [← List.countP_eq_length_filter,
          countP_updateFirst
            (fun av => av.doctor_id == did' && av.available_date == d')
            (fun av => av.doctor_id == did && av.available_date == d)
            (fun av => { av with start_time := st, end_time := en })
            s.availabilities (fun b => rfl),
          List.countP_eq_length_filter]
        exact hs did' d'
    | none =>
        intro did' d'
        simp only [List.filter_append, List.length_append]
        by_cases hq : ((did == did') && (d == d')) = true
        · obtain ⟨hq1, hq2⟩ := Bool.and_eq_true_iff.mp hq
          have hdid : did = did' := by simpa using hq1
          have hd : d = d' := by simpa using hq2
          subst hdid hd
          have hzero : s.availabilities.filter
              (fun av => av.doctor_id == did && av.available_date == d) = [] := by
            rw [List.filter_eq_nil_iff]
            intro b hb
            exact List.find?_eq_none.mp hf b hb
          simp [hzero, List.filter_cons, hq]
        · have h0 : (List.filter
              (fun av => av.doctor_id == did' && av.available_date == d')
              [({ doctor_id := did, available_date := d, start_time := st,
                  end_time := en } : DoctorAvailability)]).length = 0 := by
            simp only [List.filter_cons]
            rw [if_neg hq]
            rfl
          rw [h0]
          simpa using hs did' d'
  · simpa [update_availability, hw] using hs

/-- C3: starting from a store satisfying the uniqueness constraint, every
sequence of setAvailability requests preserves it (at most one availability
row per (doctor, date)), and every in-window request leaves exactly one row
for its (doctor, date) key, carrying exactly the times of that request — an
overwrite of an existing row, never a second row. -/
theorem c3_availability_upsert_unique (s : Store) (hs : availUnique s) :
    (∀ calls, availUnique (applyAvailCalls s calls)) ∧
    (∀ did today d st en, today ≤ d → d ≤ today + 7 →
      (update_availability s did today d st en).1.availabilities.filter
          (fun av => av.doctor_id == did && av.available_date == d) =
        [{ doctor_id := did, available_date := d,
           start_time := st, end_time := en }]) := by
  constructor
  · intro calls
    induction calls generalizing s with
    | nil => exact hs
    | cons c cs ih =>
        exact ih _ (availUnique_update_availability s hs
          c.doctor_id c.today c.available_date c.start_time c.end_time)
  · intro did today d st en h1 h2
    have hw : today ≤ d ∧ d ≤ today + 7 := ⟨h1, h2⟩
    simp only [update_availability, if_neg (not_not_intro hw)]
    cases hf : s.availabilities.find?
        (fun av => av.doctor_id == did && av.available_date == d) with
    | some row =>
        simp only
        have hkey := List.find?_some hf
        obtain ⟨hk1, hk2⟩ := Bool.and_eq_true_iff.mp hkey
        have hdid : row.doctor_id = did := by simpa using hk1
        have hd : row.available_date = d := by simpa using hk2
        have hcnt : s.availabilities.countP
            (fun av => av.doctor_id == did && av.available_date == d) ≤ 1 := by
          rw [List.countP_eq_length_filter]
          exact hs did d
        rw [filter_updateFirst_of_countP_le_one
          (fun (av : DoctorAvailability) =>
            av.doctor_id == did && av.available_date == d)
          (fun (av : DoctorAvailability) =>
            { av with start_time := st, end_time := en })
          (fun b => rfl) hcnt hf]
        cases row
        simp only at hdid hd
        subst hdid hd
        rfl
    | none =>
        simp only [List.filter_append]
        have hzero : s.availabilities.filter
            (fun av => av.doctor_id == did && av.available_date == d) = [] := by
          rw [List.filter_eq_nil_iff]
          intro b hb
          exact List.find?_eq_none.mp hf b hb
        rw [hzero]
        simp [List.filter_cons]

/-- C3 witness: from the empty-availability sample store, two in-window
requests for (doctor 1, day 12) leave a unique row, and a single request
leaves exactly the row with its own times. -/
theorem c3_availability_upsert_unique_witness :
    availUnique (applyAvailCalls sampleStore
      [{ doctor_id := 1, today := 5, available_date := 12,
         start_time := 540, end_time := 720 },
       { doctor_id := 1, today := 5, available_date := 12,
         start_time := 780, end_time := 1020 }]) ∧
    (update_availability sampleStore 1 5 12 540 720).1.availabilities.filter
        (fun av => av.doctor_id == 1 && av.available_date == 12) =
      [{ doctor_id := 1, available_date := 12,
         start_time := 540, end_time := 720 }] := by
  have hs : availUnique sampleStore := by
    intro did d
    simp [sampleStore]
  have h := c3_availability_upsert_unique sampleStore hs
  exact ⟨h.1 _, h.2 1 5 12 540 720 (by decide) (by decide)⟩

/-- In a list whose `p`-filter has at most one element, any two members
satisfying `p` are equal. -/
theorem eq_of_filter_length_le_one {p : α → Bool} {l : List α} {a b : α}
    (h : (l.filter p).length ≤ 1) (ha : a ∈ l) (hpa : p a = true)
    (hb : b ∈ l) (hpb : p b = true) : a = b := by
  have ha' : a ∈ l.filter p := List.mem_filter.mpr ⟨ha, hpa⟩
  have hb' : b ∈ l.filter p := List.mem_filter.mpr ⟨hb, hpb⟩
  cases hl : l.filter p with
  | nil =>
      rw [hl] at ha'
      simp at ha'
  | cons x xs =>
      rw [hl] at ha' hb' h
      have hxs : xs = [] := by
        simp only [List.length_cons] at h
        exact List.length_eq_zero.mp (by omega)
      subst hxs
      have hax : a = x := by simpa using ha'
      have hbx : b = x := by simpa using hb'
      rw [hax, hbx]

/-- C4: for an appointment owned by the requester, reschedule returns
ConflictError exactly when a DIFFERENT appointment (distinct id) of the same
doctor occupies (newDate, newTime); rescheduling onto the appointment's own
current slot succeeds. -/
theorem c4_reschedule_conflict_iff (s : Store) (pid aid nd nt : Nat)
    (appt : Appointment) (hu : slotUnique s)
    (hfind : s.appointments.find? (fun a => a.id == aid) = some appt)
    (hown : appt.patient_id = pid) :
    ((reschedule_appointment s pid aid nd nt).2 = .error .conflictError ↔
      ∃ c ∈ s.appointments,
        slotMatches appt.doctor_id nd nt c = true ∧ c.id ≠ appt.id) ∧
    (nd = appt.appointment_date → nt = appt.appointment_time →
      (reschedule_appointment s pid aid nd nt).2 = .ok ()) := by
  have happt : appt ∈ s.appointments := List.mem_of_find?_eq_some hfind
  constructor
  · simp only [reschedule_appointment, hfind]
    rw [if_neg (by simp [hown])]
    cases hc : s.appointments.find? (slotMatches appt.doctor_id nd nt) with
    | none =>
        simp only
        constructor
        · intro h
          exact absurd h (by simp)
        · rintro ⟨c, hcmem, hcmatch, -⟩
          exact absurd hcmatch (by simpa using List.find?_eq_none.mp hc c hcmem)
    | some c =>
        dsimp only
        by_cases hid : c.id = appt.id
        · rw [if_neg (not_not_intro hid)]
          constructor
          · intro h
            exact absurd h (by simp)
          · rintro ⟨c', hcmem', hcmatch', hne'⟩
            have hceq : c = c' := eq_of_filter_length_le_one
              (hu appt.doctor_id nd nt) (List.mem_of_find?_eq_some hc)
              (List.find?_some hc) hcmem' hcmatch'
            exact (hne' (by rw [← hceq]; exact hid)).elim
        · rw [if_pos hid]
          constructor
          · intro _
            exact ⟨c, List.mem_of_find?_eq_some hc, List.find?_some hc, hid⟩
          · intro _
            rfl
  · intro hnd hnt
    subst hnd hnt
    simp only [reschedule_appointment, hfind]
    rw [if_neg (by simp [hown])]
    cases hc : s.appointments.find?
        (slotMatches appt.doctor_id appt.appointment_date appt.appointment_time) with
    | none => rfl
    | some c =>
        dsimp only
        have hself : slotMatches appt.doctor_id appt.appointment_date
            appt.appointment_time appt = true := by
          simp [slotMatches]
        have hceq : c = appt := eq_of_filter_length_le_one
          (hu appt.doctor_id appt.appointment_date appt.appointment_time)
          (List.mem_of_find?_eq_some hc) (List.find?_some hc) happt hself
        rw [if_neg (not_not_intro (congrArg Appointment.id hceq))]

/-- C4 witness: in the sample store, patient 1 reschedules appointment 1
onto its own current slot (day 10, minute 600) and succeeds. -/
theorem c4_reschedule_conflict_iff_witness :
    (reschedule_appointment sampleStore 1 1 10 600).2 = .ok () := by
  have h := c4_reschedule_conflict_iff sampleStore 1 1 10 600
    { id := 1, patient_id := 1, doctor_id := 1, department_id := 1,
      appointment_date := 10, appointment_time := 600,
      status := .booked, reason := "checkup" }
    (by
      intro did d t
      exact (List.length_filter_le _ _).trans (by simp [sampleStore]))
    (by decide) rfl
  exact h.2 rfl rfl

/-- C5: a conflict-free reschedule by the owner succeeds, and afterwards the
appointment carries the new date and time with status reset to Booked,
whatever status it had before (so a Cancelled appointment is reactivated). -/
theorem c5_reschedule_success_updates (s : Store) (pid aid nd nt : Nat)
    (appt : Appointment)
    (hfind : s.appointments.find? (fun a => a.id == aid) = some appt)
    (hown : appt.patient_id = pid)
    (hfree : ∀ c ∈ s.appointments,
      slotMatches appt.doctor_id nd nt c = true → c.id = appt.id) :
    (reschedule_appointment s pid aid nd nt).2 = .ok () ∧
    (reschedule_appointment s pid aid nd nt).1.appointments.find?
        (fun a => a.id == aid) =
      some { appt with
             appointment_date := nd, appointment_time := nt,
             status := .booked } := by
  simp only [reschedule_appointment, hfind]
  rw [if_neg (by simp [hown])]
  have hupd := find?_updateFirst_self (fun (a : Appointment) => a.id == aid)
    (fun a => { a with
                appointment_date := nd, appointment_time := nt,
                status := .booked })
    (fun b => rfl) hfind
  cases hc : s.appointments.find? (slotMatches appt.doctor_id nd nt) with
  | none => exact ⟨rfl, hupd⟩
  | some c =>
      dsimp only
      have hcid : c.id = appt.id :=
        hfree c (List.mem_of_find?_eq_some hc) (List.find?_some hc)
      rw [if_neg (not_not_intro hcid)]
      exact ⟨rfl, hupd⟩

/-- C5 witness: in the sample store, patient 1 moves the previously booked
appointment 1 to the free slot (day 11, minute 600); it succeeds and the
record shows the new date, the new time and status Booked. -/
theorem c5_reschedule_success_updates_witness :
    (reschedule_appointment sampleStore 1 1 11 600).2 = .ok () ∧
    (reschedule_appointment sampleStore 1 1 11 600).1.appointments.find?
        (fun a => a.id == 1) =
      some { id := 1, patient_id := 1, doctor_id := 1, department_id := 1,
             appointment_date := 11, appointment_time := 600,
             status := .booked, reason := "checkup" } := by
  have h := c5_reschedule_success_updates sampleStore 1 1 11 600
    { id := 1, patient_id := 1, doctor_id := 1, department_id := 1,
      appointment_date := 10, appointment_time := 600,
      status := .booked, reason := "checkup" }
    (by decide) rfl (by decide)
  exact h

/-- C6: cancel by a non-owner fails with ForbiddenError leaving the store
untouched; cancel by the owner always succeeds and sets status Cancelled
whatever the prior status, and cancelling a second time changes nothing
(idempotent). -/
theorem c6_cancel_owner_idempotent (s : Store) (pid aid : Nat)
    (appt : Appointment)
    (hfind : s.appointments.find? (fun a => a.id == aid) = some appt) :
    (appt.patient_id ≠ pid →
      cancel_appointment s pid aid = (s, .error .forbiddenError)) ∧
    (appt.patient_id = pid →
      (cancel_appointment s pid aid).2 = .ok () ∧
      (cancel_appointment s pid aid).1.appointments.find?
          (fun a => a.id == aid) = some { appt with status := .cancelled } ∧
      cancel_appointment (cancel_appointment s pid aid).1 pid aid =
        ((cancel_appointment s pid aid).1, .ok ())) := by
  constructor
  · intro hne
    simp [cancel_appointment, hfind, hne]
  · intro hown
    have hok : cancel_appointment s pid aid =
        ({ s with appointments :=
            (updateFirst (fun a => a.id == aid)
              (fun a => { a with status := .cancelled }) s.appointments) },
         .ok ()) := by
      simp [cancel_appointment, hfind, hown]
    have hupd := find?_updateFirst_self (fun (a : Appointment) => a.id == aid)
      (fun a => { a with status := .cancelled }) (fun b => rfl) hfind
    refine ⟨by rw [hok], by rw [hok]; exact hupd, ?_⟩
    rw [hok]
    simp only [cancel_appointment, hupd]
    rw [if_neg (not_not_intro hown)]
    have hidem := updateFirst_idem (fun (a : Appointment) => a.id == aid)
      (fun a => { a with status := AppointmentStatus.cancelled })
      s.appointments (fun b => rfl) (fun b => rfl)
    rw [hidem]

/-- C6 witness: patient 2 cannot cancel patient 1's appointment; patient 1
can, the record becomes Cancelled, and a second cancel is a no-op. -/
theorem c6_cancel_owner_idempotent_witness :
    cancel_appointment sampleStore 2 1 = (sampleStore, .error .forbiddenError) ∧
    (cancel_appointment sampleStore 1 1).2 = .ok () ∧
    cancel_appointment (cancel_appointment sampleStore 1 1).1 1 1 =
      ((cancel_appointment sampleStore 1 1).1, .ok ()) := by
  have h := c6_cancel_owner_idempotent sampleStore 2 1
    { id := 1, patient_id := 1, doctor_id := 1, department_id := 1,
      appointment_date := 10, appointment_time := 600,
      status := .booked, reason := "checkup" }
    (by decide)
  have h2 := c6_cancel_owner_idempotent sampleStore 1 1
    { id := 1, patient_id := 1, doctor_id := 1, department_id := 1,
      appointment_date := 10, appointment_time := 600,
      status := .booked, reason := "checkup" }
    (by decide)
  exact ⟨h.1 (by decide), (h2.2 rfl).1, (h2.2 rfl).2.2⟩

/-- C7: the doctor clinical update is forbidden unless the requester is the
appointment's doctor; when it proceeds it always succeeds, the status column
changes only for a recognized status name (and then to exactly that value),
and the treatment note is upserted: afterwards the note for the appointment
holds exactly the supplied three texts (empty strings included), with a row
created only when none existed. -/
theorem c7_clinical_update_gate_and_upsert (s : Store) (rdid aid : Nat)
    (appt : Appointment) (status : Option String)
    (diagnosis prescription notes : String)
    (hfind : s.appointments.find? (fun a => a.id == aid) = some appt) :
    (appt.doctor_id ≠ rdid →
      update_appointment_status s rdid aid status diagnosis prescription notes =
        (s, .error .forbiddenError)) ∧
    (appt.doctor_id = rdid →
      (update_appointment_status s rdid aid status diagnosis prescription
          notes).2 = .ok () ∧
      (∀ name, status = some name → statusFromName name = none →
        (update_appointment_status s rdid aid status diagnosis prescription
            notes).1.appointments = s.appointments) ∧
      (status = none →
        (update_appointment_status s rdid aid status diagnosis prescription
            notes).1.appointments = s.appointments) ∧
      (∀ name st, status = some name → statusFromName name = some st →
        (update_appointment_status s rdid aid status diagnosis prescription
            notes).1.appointments.find? (fun a => a.id == aid) =
          some { appt with status := st }) ∧
      (update_appointment_status s rdid aid status diagnosis prescription
          notes).1.treatment_notes.find? (fun n => n.appointment_id == aid) =
        some { appointment_id := aid, diagnosis := diagnosis,
               prescription := prescription, notes := notes } ∧
      (update_appointment_status s rdid aid status diagnosis prescription
          notes).1.treatment_notes.length =
        (if (s.treatment_notes.find?
              (fun n => n.appointment_id == aid)).isSome
         then s.treatment_notes.length
         else s.treatment_notes.length + 1)) := by
  constructor
  · intro hne
    simp [update_appointment_status, hfind, hne]
  · intro hdd
    refine ⟨?_, ?_, ?_, ?_, ?_, ?_⟩
    · simp only [update_appointment_status, hfind]
      rw [if_neg (not_not_intro hdd)]
    · intro name hname hbad
      subst hname
      simp only [update_appointment_status, hfind]
      rw [if_neg (not_not_intro hdd)]
      simp [applyStatusForm, hbad]
    · intro hnone
      subst hnone
      simp only [update_appointment_status, hfind]
      rw [if_neg (not_not_intro hdd)]
      simp [applyStatusForm]
    · intro name st hname hst
      subst hname
      simp only [update_appointment_status, hfind]
      rw [if_neg (not_not_intro hdd)]
      have hupd := find?_updateFirst_self (fun (a : Appointment) => a.id == aid)
        (fun a => { a with status := st }) (fun b => rfl) hfind
      simp [applyStatusForm, hst, hupd]
    · simp only [update_appointment_status, hfind]
      rw [if_neg (not_not_intro hdd)]
      cases hn : s.treatment_notes.find? (fun n => n.appointment_id == aid) with
      | some told =>
          dsimp only
          have htid : told.appointment_id = aid := by
            simpa using List.find?_some hn
          have hupd := find?_updateFirst_self
            (fun (n : TreatmentNote) => n.appointment_id == aid)
            (fun n => { n with
                        diagnosis := diagnosis,
                        prescription := prescription, notes := notes })
            (fun b => rfl) hn
          rw [hupd]
          cases told
          simp only at htid
          subst htid
          rfl
      | none =>
          dsimp only
          rw [List.find?_append, hn]
          simp [List.find?_cons]
    · simp only [update_appointment_status, hfind]
      rw [if_neg (not_not_intro hdd)]
      cases hn : s.treatment_notes.find? (fun n => n.appointment_id == aid) with
      | some told =>
          simp [length_updateFirst, hn]
      | none =>
          simp [hn]

/-- C7 witness: doctor 2 is rejected on doctor 1's appointment; doctor 1
marks it Completed with texts ("Flu", "rest", "") — afterwards the status is
Completed and a fresh note holds exactly those texts. -/
theorem c7_clinical_update_gate_and_upsert_witness :
    update_appointment_status sampleStore 2 1 (some "COMPLETED") "Flu" "rest" ""
      = (sampleStore, .error .forbiddenError) ∧
    (update_appointment_status sampleStore 1 1 (some "COMPLETED") "Flu" "rest"
        "").1.appointments.find? (fun a => a.id == 1) =
      some { id := 1, patient_id := 1, doctor_id := 1, department_id := 1,
             appointment_date := 10, appointment_time := 600,
             status := .completed, reason := "checkup" } ∧
    (update_appointment_status sampleStore 1 1 (some "COMPLETED") "Flu" "rest"
        "").1.treatment_notes.find? (fun n => n.appointment_id == 1) =
      some { appointment_id := 1, diagnosis := "Flu",
             prescription := "rest", notes := "" } := by
  have h := c7_clinical_update_gate_and_upsert sampleStore 2 1
    { id := 1, patient_id := 1, doctor_id := 1, department_id := 1,
      appointment_date := 10, appointment_time := 600,
      status := .booked, reason := "checkup" }
    (some "COMPLETED") "Flu" "rest" "" (by decide)
  have h2 := c7_clinical_update_gate_and_upsert sampleStore 1 1
    { id := 1, patient_id := 1, doctor_id := 1, department_id := 1,
      appointment_date := 10, appointment_time := 600,
      status := .booked, reason := "checkup" }
    (some "COMPLETED") "Flu" "rest" "" (by decide)
  refine ⟨h.1 (by decide), ?_, (h2.2 rfl).2.2.2.2.1⟩
  have := (h2.2 rfl).2.2.2.1 "COMPLETED" .completed rfl rfl
  exact this

/-- A store in which doctor 1's flag (true) disagrees with its linked user's
flag (false): the code copies the doctor's new flag onto the user, so a
doctor/user pair that starts out unequal is not restored by two toggles. -/
def c8Store : Store :=
  { users := [{ id := 1, is_active := false }],
    doctors := [{ id := 1, user_id := 1, is_active := true }],
    appointments := [], availabilities := [], treatment_notes := [] }

/-- C8 counterexample: in `c8Store` (doctor active, linked user inactive),
toggling doctor 1 twice leaves the user active — not its original inactive
state — so the double-toggle claim fails as stated for such a pair. -/
theorem c8_toggle_counterexample :
    (toggle_doctor (toggle_doctor c8Store 1).1 1).1.users.map User.is_active ≠
      c8Store.users.map User.is_active := by decide

/-- C8 amended: one admin toggle sets both the doctor's flag and the linked
user's flag to the negation of the doctor's previous flag (so they agree
afterwards); two toggles restore the doctor always, and restore the linked
user provided its flag agreed with the doctor's beforehand — which holds in
every state the application itself can reach. -/
theorem c8_toggle_amended (s : Store) (did : Nat) (doc : Doctor) (u : User)
    (hd : s.doctors.find? (fun x => x.id == did) = some doc)
    (hu : s.users.find? (fun x => x.id == doc.user_id) = some u) :
    ((toggle_doctor s did).2 = .ok () ∧
     (toggle_doctor s did).1.doctors.find? (fun x => x.id == did) =
       some { doc with is_active := !doc.is_active } ∧
     (toggle_doctor s did).1.users.find? (fun x => x.id == doc.user_id) =
       some { u with is_active := !doc.is_active }) ∧
    ((toggle_doctor (toggle_doctor s did).1 did).1.doctors.find?
        (fun x => x.id == did) = some doc ∧
     (u.is_active = doc.is_active →
       (toggle_doctor (toggle_doctor s did).1 did).1.users.find?
          (fun x => x.id == doc.user_id) = some u)) := by
  have hd1 := find?_updateFirst_self (fun (x : Doctor) => x.id == did)
    (fun x => { x with is_active := !doc.is_active }) (fun b => rfl) hd
  have hu1 := find?_updateFirst_self (fun (x : User) => x.id == doc.user_id)
    (fun x => { x with is_active := !doc.is_active }) (fun b => rfl) hu
  have h1 : toggle_doctor s did =
      ({ s with
          doctors := (updateFirst (fun x => x.id == did)
            (fun x => { x with is_active := !doc.is_active }) s.doctors),
          users := (updateFirst (fun x => x.id == doc.user_id)
            (fun x => { x with is_active := !doc.is_active }) s.users) },
       .ok ()) := by
    simp [toggle_doctor, hd]
  have hd2 := find?_updateFirst_self (fun (x : Doctor) => x.id == did)
    (fun x => { x with is_active := doc.is_active }) (fun b => rfl) hd1
  have hu2 := find?_updateFirst_self (fun (x : User) => x.id == doc.user_id)
    (fun x => { x with is_active := doc.is_active }) (fun b => rfl) hu1
  have h2 : toggle_doctor (toggle_doctor s did).1 did =
      ({ s with
          doctors := (updateFirst (fun x => x.id == did)
            (fun x => { x with is_active := doc.is_active })
            (updateFirst (fun x => x.id == did)
              (fun x => { x with is_active := !doc.is_active }) s.doctors)),
          users := (updateFirst (fun x => x.id == doc.user_id)
            (fun x => { x with is_active := doc.is_active })
            (updateFirst (fun x => x.id == doc.user_id)
              (fun x => { x with is_active := !doc.is_active }) s.users)) },
       .ok ()) := by
    rw [h1]
    simp [toggle_doctor, hd1]
  refine ⟨⟨by rw [h1], by rw [h1]; exact hd1, by rw [h1]; exact hu1⟩, ?_, ?_⟩
  · rw [h2]
    dsimp only
    rw [hd2]
  · intro hflag
    rw [h2]
    dsimp only
    rw [hu2]
    rw [← hflag]

/-- C8 amended witness: in the sample store doctor 1 and user 1 agree
(both active); one toggle turns both off, a second restores both. -/
theorem c8_toggle_amended_witness :
    (toggle_doctor sampleStore 1).1.doctors.find? (fun x => x.id == 1) =
      some { id := 1, user_id := 1, is_active := false } ∧
    (toggle_doctor (toggle_doctor sampleStore 1).1 1).1.doctors.find?
        (fun x => x.id == 1) = some { id := 1, user_id := 1, is_active := true } ∧
    (toggle_doctor (toggle_doctor sampleStore 1).1 1).1.users.find?
        (fun x => x.id == 1) = some { id := 1, is_active := true } := by
  have h := c8_toggle_amended sampleStore 1
    { id := 1, user_id := 1, is_active := true }
    { id := 1, is_active := true } (by decide) (by decide)
  exact ⟨h.1.2.1, h.2.1, h.2.2 rfl⟩

/-- C9: an unrecognized status string (anything other than the member names
"BOOKED", "COMPLETED", "CANCELLED") is silently ignored by both the admin
status override and the doctor clinical update: the appointment's status —
indeed the whole appointment table — is unchanged, yet both operations
still report success rather than any error. -/
theorem c9_unrecognized_status_ignored_success (s : Store) (aid rdid : Nat)
    (appt : Appointment) (name : String)
    (diagnosis prescription notes : String)
    (hfind : s.appointments.find? (fun a => a.id == aid) = some appt)
    (hbad : statusFromName name = none) :
    admin_update_appointment s aid (some name) = (s, .ok ()) ∧
    (appt.doctor_id = rdid →
      (update_appointment_status s rdid aid (some name) diagnosis prescription
          notes).2 = .ok () ∧
      (update_appointment_status s rdid aid (some name) diagnosis prescription
          notes).1.appointments = s.appointments) := by
  constructor
  · simp [admin_update_appointment, hfind, applyStatusForm, hbad]
  · intro hdd
    constructor
    · simp only [update_appointment_status, hfind]
      rw [if_neg (not_not_intro hdd)]
    · simp only [update_appointment_status, hfind]
      rw [if_neg (not_not_intro hdd)]
      simp [applyStatusForm, hbad]

/-- C9 witness: the status string "Completed" is NOT a recognized member
name (the names are uppercase), yet both operations succeed on the sample
store and leave appointment 1 Booked. -/
theorem c9_unrecognized_status_ignored_success_witness :
    admin_update_appointment sampleStore 1 (some "Completed") =
      (sampleStore, .ok ()) ∧
    (update_appointment_status sampleStore 1 1 (some "Completed") "" "" ""
      ).1.appointments = sampleStore.appointments := by
  have h := c9_unrecognized_status_ignored_success sampleStore 1 1
    { id := 1, patient_id := 1, doctor_id := 1, department_id := 1,
      appointment_date := 10, appointment_time := 600,
      status := .booked, reason := "checkup" }
    "Completed" "" "" "" (by decide) (by decide)
  exact ⟨h.1, (h.2 rfl).2⟩

/-- C10: booking reads nothing but the appointment table — replacing the
doctor, user, availability and note tables wholesale changes neither the
outcome nor the resulting appointments — and any slot with no existing
appointment books successfully, so neither a missing availability window
nor a deactivated doctor prevents a booking. -/
theorem c10_book_ignores_doctor_state (s : Store) (doctors : List Doctor)
    (users : List User) (avails : List DoctorAvailability)
    (tns : List TreatmentNote) (pid did dept d t newId : Nat)
    (reason : String) :
    ((book_appointment
        { users := users, doctors := doctors,
          appointments := s.appointments,
          availabilities := avails, treatment_notes := tns }
        pid did dept d t reason newId).2 =
      (book_appointment s pid did dept d t reason newId).2 ∧
     (book_appointment
        { users := users, doctors := doctors,
          appointments := s.appointments,
          availabilities := avails, treatment_notes := tns }
        pid did dept d t reason newId).1.appointments =
      (book_appointment s pid did dept d t reason newId).1.appointments) ∧
    ((∀ a ∈ s.appointments, slotMatches did d t a = false) →
      (book_appointment s pid did dept d t reason newId).2 = .ok ()) := by
  constructor
  · cases hf : s.appointments.find? (slotMatches did d t) with
    | some c =>
        constructor <;> simp [book_appointment, hf]
    | none =>
        constructor <;> simp [book_appointment, hf]
  · intro hfree
    have hnone : s.appointments.find? (slotMatches did d t) = none :=
      List.find?_eq_none.mpr (fun x hx => by simp [hfree x hx])
    simp [book_appointment, hnone]

/-- A store whose only doctor is deactivated (as is its login user) and who
has declared no availability at all. -/
def inactiveDoctorStore : Store :=
  { users := [{ id := 7, is_active := false }],
    doctors := [{ id := 7, user_id := 7, is_active := false }],
    appointments := [], availabilities := [], treatment_notes := [] }

/-- C10 witness: booking the deactivated, availability-less doctor 7
succeeds because the slot is free. -/
theorem c10_book_ignores_doctor_state_witness :
    (book_appointment inactiveDoctorStore 1 7 1 20 600 "visit" 1).2 =
      .ok () := by
  have h := c10_book_ignores_doctor_state inactiveDoctorStore
    [] [] [] [] 1 7 1 20 600 1 "visit"
  exact h.2 (by decide)

end HMS
